import Mathlib

/-!
Verification of the AntiVirusLite core against its specification.

Shallow embedding conventions:
* Python `float` percentages and time values are modelled as `ℚ`
  (the properties proved are robust to rounding; see per-claim comments).
* Byte strings are `List Nat`; file paths and other strings are `String`.
* Python `str.startswith` is modelled as a prefix test on character lists
  (`pyStartswith`), which is its documented semantics.
* The filesystem and JSON metadata mapping are modelled as association
  lists, mutated by explicit state passing.
* Exceptions are modelled by the control flow of the translated function:
  each `try`/`except` block becomes an explicit branch; primitive
  operations that can raise take an explicit failure flag where a claim
  depends on failure behavior.
-/

set_option maxHeartbeats 1000000

namespace AVSpec

/-- Character-list prefix test, mirrors Python's `str.startswith`. -/
def pyPrefixList : List Char → List Char → Bool
  | [], _ => true
  | _ :: _, [] => false
  | a :: as, b :: bs => a == b && pyPrefixList as bs

/-- Model of Python `s.startswith(p)`. -/
def pyStartswith (s p : String) : Bool := pyPrefixList p.data s.data

/-! ## System health monitor (`src/core/system_health_monitor.py`) -/

/-- `HealthThresholds` dataclass defaults. -/
structure HealthThresholds where
  min_disk_space : Nat
  max_memory_usage : ℚ
  max_cpu_temp : ℚ
  max_cpu_usage : ℚ
  min_disk_free : ℚ
  deriving Repr, DecidableEq

/-- Default thresholds from `HealthThresholds` field defaults. -/
def defaultThresholds : HealthThresholds :=
  { min_disk_space := 1024 * 1024 * 1024
    max_memory_usage := 85
    max_cpu_temp := 85
    max_cpu_usage := 90
    min_disk_free := 10 }

/-- One telemetry sample, the psutil readings consumed by
`SystemHealthMonitor._check_system_health` (timestamp and io counters
omitted: the claims do not mention them). -/
structure HealthSample where
  disk_free : Nat
  disk_percent : ℚ
  memory_percent : ℚ
  memory_available : Nat
  cpu_usage : ℚ
  cpu_temp : Option ℚ
  deriving Repr, DecidableEq

/-- The monitored critical services (`SystemHealthMonitor.__init__`). -/
def critical_services : List String :=
  ["antivirus", "realtime_protection", "update_service"]

/-- `_check_critical_services`: the body of the `try` block always reports
`running: True` for each service (the `except` branch is unreachable). -/
def checkCriticalServices : List (String × Bool) :=
  critical_services.map (fun s => (s, true))

/-- Stand-in for Python's `f"{x:.1f}"` numeric formatting.  Only the
literal text *before* the number matters for the `startswith("Critical")`
dispatch, so the exact digits rendered are irrelevant to every claim. -/
def fmt1 (q : ℚ) : String := toString q

/-- Result of `_check_system_health` (fields the claims depend on). -/
structure HealthStatusR where
  status : String
  issues : List String
  disk_space : Nat
  disk_usage : ℚ
  memory_usage : ℚ
  cpu_usage : ℚ
  deriving Repr, DecidableEq

/-- Issue list built by `_check_system_health`, in source order. -/
def healthIssues (th : HealthThresholds) (s : HealthSample) : List String :=
  (if s.disk_free < th.min_disk_space then
      ["Low disk space: " ++ fmt1 ((s.disk_free : ℚ) / 1024 / 1024 / 1024) ++ "GB free"]
    else []) ++
  (if s.memory_percent > th.max_memory_usage then
      ["High memory usage: " ++ fmt1 s.memory_percent ++ "%"]
    else []) ++
  (if s.cpu_usage > th.max_cpu_usage then
      ["High CPU usage: " ++ fmt1 s.cpu_usage ++ "%"]
    else []) ++
  (match s.cpu_temp with
    | some t =>
      if t > th.max_cpu_temp then
        ["High CPU temperature: " ++ fmt1 t ++ "°C"]
      else []
    | none => []) ++
  (checkCriticalServices.filterMap (fun p =>
    if p.2 then none else some ("Critical service not running: " ++ p.1)))

/-- Overall status derivation at the end of `_check_system_health`:
`critical` iff some issue starts with `"Critical"`, else `warning` iff
any issue exists, else `healthy`. -/
def overallStatus (issues : List String) : String :=
  if issues.any (fun i => pyStartswith i "Critical") then "critical"
  else if !issues.isEmpty then "warning"
  else "healthy"

/-- `SystemHealthMonitor._check_system_health`. -/
def checkSystemHealth (th : HealthThresholds) (s : HealthSample) : HealthStatusR :=
  let issues := healthIssues th s
  { status := overallStatus issues
    issues := issues
    disk_space := s.disk_free
    disk_usage := s.disk_percent
    memory_usage := s.memory_percent
    cpu_usage := s.cpu_usage }

/-- A sample with 500 MiB free disk and everything else nominal. -/
def sampleLowDisk : HealthSample :=
  { disk_free := 500 * 1024 * 1024
    disk_percent := 50
    memory_percent := 40
    memory_available := 8 * 1024 * 1024 * 1024
    cpu_usage := 20
    cpu_temp := none }

/-! ## Association maps

Both the on-disk JSON metadata mapping and the filesystem are modelled as
association lists keyed by strings.  `amSet` replaces any existing binding
(Python dict assignment / rewriting a file); binding order is irrelevant
to every claim. -/

/-- First binding for `k`, like a Python dict lookup. -/
def amGet {β : Type} : List (String × β) → String → Option β
  | [], _ => none
  | e :: es, k => if e.1 = k then some e.2 else amGet es k

/-- Drop the binding for `k` (Python `dict.pop(k, None)` / `Path.unlink`). -/
def amRemove {β : Type} : List (String × β) → String → List (String × β)
  | [], _ => []
  | e :: es, k => if e.1 = k then amRemove es k else e :: amRemove es k

/-- Replace/insert the binding for `k`. -/
def amSet {β : Type} (l : List (String × β)) (k : String) (v : β) : List (String × β) :=
  (k, v) :: amRemove l k

/-! ## Resource throttler (`src/core/resource_throttler.py`) -/

/-- `ThrottleRule` dataclass. -/
structure ThrottleRule where
  resource : String
  threshold : ℚ
  reduction : ℚ
  cooldown : Nat
  priority : Nat
  deriving Repr, DecidableEq

/-- The default rules built in `ResourceThrottler.__init__`. -/
def defaultThrottleRules : List ThrottleRule :=
  [ { resource := "cpu", threshold := 80, reduction := 1/2, cooldown := 30, priority := 8 },
    { resource := "memory", threshold := 85, reduction := 2/5, cooldown := 60, priority := 9 },
    { resource := "disk_io", threshold := 90, reduction := 3/5, cooldown := 20, priority := 7 } ]

/-- The mutable fields of `ResourceThrottler`.  `lockHeld` models the
non-reentrant `threading.Lock` stored in `self.throttle_lock`: a `with`
block on an already-held lock blocks the thread forever. -/
structure ThrottlerState where
  lockHeld : Bool
  is_throttled : Bool
  throttle_start : Option ℚ
  current_rules : List ThrottleRule
  rules : List ThrottleRule
  deriving Repr, DecidableEq

/-- One psutil reading: the values `check_resources` would sample. -/
structure ResourceReading where
  cpu_percent : ℚ
  memory_percent : ℚ
  disk_read_bytes : Nat
  disk_write_bytes : Nat
  deriving Repr, DecidableEq

/-- `ResourceThrottler.get_rule`: first rule for the resource, `none`
models the `ValueError` raised when no rule matches. -/
def getRule (rules : List ThrottleRule) (resource : String) : Option ThrottleRule :=
  rules.find? (fun r => r.resource == resource)

/-- Observable outcome of a `check_resources` call that returns.
`sampledMetrics` is a ghost flag recording whether psutil was consulted. -/
structure CheckOutcome where
  result : Bool
  state : ThrottlerState
  sampledMetrics : Bool
  deriving Repr, DecidableEq

/-- `ResourceThrottler.check_resources`, sequential semantics with the
lock modelled explicitly.  The value `none` models a call that never
returns normally: `release_throttle` and `apply_throttle` both open a
`with self.throttle_lock` block while `check_resources` already holds
that same non-reentrant lock, so those paths block forever.  (`none` also
covers the unreachable `ValueError` from `get_rule` when a default rule
is missing.)  `now` is the single wall-clock instant of the call.

`sampleAndCheckTriggers` is the non-throttled tail of the function:
sample cpu/memory/disk, collect every rule whose threshold is exceeded,
and either return `False` or enter `apply_throttle`. -/
def sampleAndCheckTriggers (s : ThrottlerState) (m : ResourceReading) :
    Option CheckOutcome :=
  (getRule s.rules "cpu").bind fun rc =>
  (getRule s.rules "memory").bind fun rm =>
  (getRule s.rules "disk_io").bind fun rd =>
  let disk_io_percent : ℚ :=
    ((m.disk_read_bytes + m.disk_write_bytes : Nat) : ℚ) / (1024 * 1024)
  let triggered :=
    (if m.cpu_percent > rc.threshold then [rc] else []) ++
    (if m.memory_percent > rm.threshold then [rm] else []) ++
    (if disk_io_percent > rd.threshold then [rd] else [])
  if triggered.isEmpty then
    some { result := false, state := s, sampledMetrics := true }
  else
    -- apply_throttle(triggered) re-acquires the already-held
    -- non-reentrant lock and blocks forever
    none

def checkResources (s : ThrottlerState) (now : ℚ) (m : ResourceReading) :
    Option CheckOutcome :=
  if s.lockHeld then none
  else if s.is_throttled then
    match s.throttle_start with
    | some t0 =>
      -- cooldown check: the loop returns True at the first active rule
      -- whose cooldown has not yet elapsed
      let elapsed := now - t0
      if s.current_rules.any (fun r => elapsed < (r.cooldown : ℚ)) then
        some { result := true, state := s, sampledMetrics := false }
      else
        -- "Cooldown complete": release_throttle() re-acquires the
        -- already-held non-reentrant lock and blocks forever
        none
    | none => sampleAndCheckTriggers s m
  else sampleAndCheckTriggers s m

/-- A throttled state whose single active rule's cooldown has fully
elapsed at time 31 (cpu rule, cooldown 30s, activated at time 0). -/
def throttledExpiredState : ThrottlerState :=
  { lockHeld := false
    is_throttled := true
    throttle_start := some 0
    current_rules := [{ resource := "cpu", threshold := 80, reduction := 1/2,
                        cooldown := 30, priority := 8 }]
    rules := defaultThrottleRules }

/-- An idle (non-throttled) throttler state with the default rules. -/
def idleThrottlerState : ThrottlerState :=
  { lockHeld := false
    is_throttled := false
    throttle_start := none
    current_rules := []
    rules := defaultThrottleRules }

/-- A reading whose CPU load (95%) exceeds the cpu rule threshold (80%). -/
def highCpuReading : ResourceReading :=
  { cpu_percent := 95, memory_percent := 10, disk_read_bytes := 0, disk_write_bytes := 0 }

/-! ## Scan intensity manager (`src/core/scan_intensity_manager.py`) -/

/-- `ScanProfile` dataclass. -/
structure ScanProfile where
  name : String
  thread_count : Nat
  batch_size : Nat
  throttle_delay : ℚ
  max_cpu_usage : ℚ
  max_memory_usage : ℚ
  max_io_rate : ℚ
  description : String
  deriving Repr, DecidableEq

/-- The four profiles built in `ScanIntensityManager.__init__`. -/
def profilesList : List (String × ScanProfile) :=
  [ ("aggressive",
     { name := "aggressive", thread_count := 8, batch_size := 5000, throttle_delay := 0,
       max_cpu_usage := 80, max_memory_usage := 512, max_io_rate := 100,
       description := "Maximum performance, high resource usage" }),
    ("balanced",
     { name := "balanced", thread_count := 4, batch_size := 2000, throttle_delay := 1/20,
       max_cpu_usage := 50, max_memory_usage := 384, max_io_rate := 50,
       description := "Balanced performance and resource usage" }),
    ("conservative",
     { name := "conservative", thread_count := 2, batch_size := 1000, throttle_delay := 1/10,
       max_cpu_usage := 30, max_memory_usage := 256, max_io_rate := 25,
       description := "Minimal resource usage, lower performance" }),
    ("minimal",
     { name := "minimal", thread_count := 1, batch_size := 500, throttle_delay := 1/5,
       max_cpu_usage := 20, max_memory_usage := 128, max_io_rate := 10,
       description := "Emergency mode, lowest resource usage" }) ]

/-- `self.profiles[name]`; `none` models the `KeyError`. -/
def profilesGet (name : String) : Option ScanProfile := amGet profilesList name

/-- Mutable fields of `ScanIntensityManager`; times in seconds. -/
structure IntensityState where
  current_profile : String
  last_adjustment : ℚ
  deriving Repr, DecidableEq

/-- `adjustment_cooldown = timedelta(minutes=5)`, in seconds. -/
def adjustment_cooldown : ℚ := 300

/-- The dictionary returned by `SystemHealthMonitor.get_current_health`
(fields read by `_select_profile`). -/
structure HealthDict where
  status : String
  memory_usage : ℚ
  cpu_usage : ℚ
  disk_usage : ℚ
  deriving Repr, DecidableEq

/-- `ScanIntensityManager._select_profile`. -/
def selectProfile (h : HealthDict) : String :=
  if h.status = "critical" then "minimal"
  else if h.memory_usage > 90 then "minimal"
  else if h.memory_usage > 75 then "conservative"
  else if h.cpu_usage > 85 then "minimal"
  else if h.cpu_usage > 70 then "conservative"
  else if h.disk_usage > 95 then "minimal"
  else if h.disk_usage > 85 then "conservative"
  else if h.status = "healthy" ∧ h.memory_usage < 50 ∧ h.cpu_usage < 40 ∧ h.disk_usage < 70 then
    "aggressive"
  else "balanced"

/-- `ScanIntensityManager.adjust_intensity`.  `health` is the value of
`get_current_health()` (`none` for the falsy empty dict).  A `KeyError`
on a profile lookup is caught by the surrounding `except` and yields
`(none, st)` with no state change, exactly as in the source. -/
def adjustIntensity (st : IntensityState) (now : ℚ) (health : Option HealthDict) :
    Option ScanProfile × IntensityState :=
  if now - st.last_adjustment < adjustment_cooldown then (none, st)
  else
    match health with
    | none => (none, st)
    | some h =>
      let new_profile := selectProfile h
      if new_profile ≠ st.current_profile then
        match profilesGet st.current_profile with
        | none => (none, st)
        | some _old =>
          match profilesGet new_profile with
          | none => (none, st)
          | some cfg =>
            (some cfg, { current_profile := new_profile, last_adjustment := now })
      else (none, st)

/-! ## Scan optimizer batch size (`src/core/scan_optimizer.py`,
`ScanEngine._handle_memory_throttle` in `src/core/engine.py`) -/

/-- `ScanOptimizer` configured bounds and initial batch size. -/
def min_batch_size : Nat := 100

def max_batch_size : Nat := 5000

def initial_batch_size : Nat := 1000

/-- Python `int(q)` for the non-negative values arising here (truncation
and floor coincide on non-negatives).  Python evaluates `0.8`, `1.2` and
`1 - reduction` in binary floating point; the batch-size bounds proved
below are robust to that rounding, so the exact rational is used. -/
def pyInt (q : ℚ) : Nat := Int.toNat ⌊q⌋

/-- `ScanOptimizer.adjust_batch_size`, as a function of the last batch's
`files_per_second` measurement. -/
def adjust_batch_size (target_speed files_per_second : ℚ) (batch_size : Nat) : Nat :=
  if files_per_second < target_speed * (4/5) then
    max min_batch_size (pyInt ((batch_size : ℚ) * (4/5)))
  else if files_per_second > target_speed * (6/5) then
    min max_batch_size (pyInt ((batch_size : ℚ) * (6/5)))
  else batch_size

/-- `ScanEngine._handle_memory_throttle`: shrink the optimizer's batch
size by the rule's reduction fraction, clamped below. -/
def handle_memory_throttle (reduction : ℚ) (batch_size : Nat) : Nat :=
  max min_batch_size (pyInt ((batch_size : ℚ) * (1 - reduction)))

/-- One batch-size mutation: either a performance adjustment or a
memory-throttle callback. -/
inductive OptimizerOp where
  | adjustBatch (target_speed files_per_second : ℚ)
  | memoryThrottle (reduction : ℚ)
  deriving Repr, DecidableEq

/-- Apply one mutation to the batch size. -/
def optStep (op : OptimizerOp) (batch_size : Nat) : Nat :=
  match op with
  | .adjustBatch t fps => adjust_batch_size t fps batch_size
  | .memoryThrottle r => handle_memory_throttle r batch_size

/-- Run a sequence of mutations from the initial batch size (1000). -/
def runOptimizerOps (ops : List OptimizerOp) : Nat :=
  ops.foldl (fun bs op => optStep op bs) initial_batch_size

/-- A memory-throttle reduction is a fraction in `[0, 1]` (spec §3,
`ThrottleRule.reduction`); performance adjustments are unconstrained. -/
def validOp : OptimizerOp → Prop
  | .adjustBatch _ _ => True
  | .memoryThrottle r => 0 ≤ r ∧ r ≤ 1

/-! ## Detection engine `scan_file` (`src/core/engine.py`) -/

/-- A threat finding, one dict in the `threats` list. -/
structure Threat where
  type : String
  details : String
  severity : Nat
  deriving Repr, DecidableEq

/-- Engine configuration for `scan_file`.  External primitives are
abstracted as functions: `sha256` is the hex digest of `hashlib.sha256`;
each entry of `patterns` is the boolean outcome of `re.search` for one
byte pattern; `yara` is the compiled rule matcher returning matched rule
names (`none` when compilation failed); `magic` is libmagic when
available. -/
structure ScanConfig where
  hashes : List String
  patterns : List (List Nat → Bool)
  suspicious_extensions : List String
  yara : Option (List Nat → List String)
  sha256 : List Nat → String
  magic : Option (List Nat → String)

/-- The filesystem facts about one path that `scan_file` consults. -/
structure FileInfo where
  path : String
  fileExists : Bool
  is_file : Bool
  size : Nat
  suffix : String
  content : List Nat
  deriving Repr, DecidableEq

/-- Result of `scan_file` (the dict it returns).  `readContent` is a
ghost flag: `true` iff the file's bytes were read (hash computation,
pattern matching or rule matching). -/
structure ScanOutcome where
  status : String
  threats : List Threat
  hash : Option String
  file_type : Option String
  readContent : Bool
  deriving Repr, DecidableEq

/-- `ScanEngine.scan_file`. -/
def scanFile (cfg : ScanConfig) (f : FileInfo) : ScanOutcome :=
  if ¬ (f.fileExists ∧ f.is_file) then
    { status := "error", threats := [], hash := none, file_type := none, readContent := false }
  else if f.size > 100 * 1024 * 1024 then
    { status := "skipped", threats := [], hash := none, file_type := none, readContent := false }
  else
    let extThreats :=
      if f.suffix.toLower ∈ cfg.suspicious_extensions then
        [{ type := "suspicious_extension",
           details := "Suspicious file extension: " ++ f.suffix, severity := 3 }]
      else []
    let file_hash := cfg.sha256 f.content
    let hashThreats :=
      if file_hash ∈ cfg.hashes then
        [{ type := "known_malware",
           details := "File matches known malware signature", severity := 10 }]
      else []
    let file_type :=
      match cfg.magic with
      | some m => m f.content
      | none => if f.suffix ≠ "" then (f.suffix.toLower.drop 1) else "unknown"
    let patternThreats :=
      if cfg.patterns.any (fun p => p f.content) then
        [{ type := "suspicious_pattern",
           details := "File contains suspicious code patterns", severity := 7 }]
      else []
    let yaraThreats :=
      match cfg.yara with
      | some y => (y f.content).map (fun r =>
          { type := "yara_match", details := "Matched YARA rule: " ++ r, severity := 8 })
      | none => []
    let threats := extThreats ++ hashThreats ++ patternThreats ++ yaraThreats
    { status := if ¬ threats.isEmpty then "infected" else "clean"
      threats := threats
      hash := some file_hash
      file_type := some file_type
      readContent := true }

/-! ## Quarantine store (`src/core/quarantine_manager.py` and the
quarantine methods of `src/core/engine.py`)

File contents are modelled as `FileData`: raw bytes, a Fernet token
(authenticated encryption: decryption under the right key recovers the
exact payload, any other decryption raises `InvalidToken`), or the
residue of an interrupted secure-delete overwrite. -/

inductive FileData where
  | raw (bytes : List Nat)
  | enc (key : Nat) (payload : FileData)
  | junk
  deriving Repr, DecidableEq

/-- `Fernet(key).encrypt`. -/
def fernetEncrypt (key : Nat) (d : FileData) : FileData := .enc key d

/-- `Fernet(key).decrypt`; `none` models the `InvalidToken` exception. -/
def fernetDecrypt (key : Nat) : FileData → Option FileData
  | .enc k d => if k = key then some d else none
  | _ => none

/-- Byte length reported by `stat().st_size` (token overhead ignored;
no claim depends on the exact figure). -/
def dataSize : FileData → Nat
  | .raw b => b.length
  | .enc _ d => dataSize d
  | .junk => 0

/-- Python `Path.name`: the final path component (the characters after
the last `/`). -/
def pathName (p : String) : String :=
  ⟨p.data.foldl (fun acc c => if c = '/' then [] else acc ++ [c]) []⟩

/-- `QuarantineEntry` dataclass (`is_encrypted` is constant `True`). -/
structure QEntry where
  original_path : String
  timestamp : String
  file_hash : String
  threat_info : List Threat
  size : Nat
  quarantine_path : String
  deriving Repr, DecidableEq

/-- Quarantine-store state: the filesystem, the persisted metadata
mapping (contents of `metadata.json`, modelled directly rather than as a
serialized file), and the in-memory Fernet key. -/
structure QMState where
  files : List (String × FileData)
  metadata : List (String × QEntry)
  key : Nat
  deriving Repr, DecidableEq

/-- Failure injection for the fallible filesystem primitives: each flag
makes the corresponding primitive raise when invoked. -/
structure FailSpec where
  writeFile : Bool
  saveMeta : Bool
  secureOverwrite : Bool
  unlink : Bool
  deriving Repr, DecidableEq

/-- No injected failures. -/
def noFail : FailSpec :=
  { writeFile := false, saveMeta := false, secureOverwrite := false, unlink := false }

/-- `QuarantineManager._secure_delete`: overwrite with random data three
times, then unlink; a missing file returns silently.  A failed overwrite
or unlink leaves the file holding overwrite residue (`open('wb')`
truncated it before the failure). -/
def secureDelete (fl : FailSpec) (files : List (String × FileData)) (p : String) :
    Bool × List (String × FileData) :=
  match amGet files p with
  | none => (true, files)
  | some _ =>
    if fl.secureOverwrite then (false, amSet files p .junk)
    else if fl.unlink then (false, amSet files p .junk)
    else (true, amRemove files p)

/-- `QuarantineManager.quarantine_file`.  `hashFn` abstracts the SHA-256
hex digest of `_calculate_hash`; `timestamp` is the formatted
`datetime.now()`.  Every `except` branch of the source returns `False`;
the state threaded out is whatever the completed steps left behind. -/
def qmQuarantineFile (hashFn : FileData → String) (fl : FailSpec)
    (timestamp file_path : String) (threat_info : List Threat) (s : QMState) :
    Bool × QMState :=
  let quarantine_name := timestamp ++ "_" ++ pathName file_path
  let quarantine_path := "quarantine/" ++ quarantine_name
  match amGet s.files file_path with
  | none => (false, s)
  | some content =>
    let encrypted := fernetEncrypt s.key content
    if fl.writeFile then (false, s)
    else
      let s1 : QMState := { s with files := amSet s.files quarantine_path encrypted }
      let entry : QEntry :=
        { original_path := file_path, timestamp := timestamp,
          file_hash := hashFn content, threat_info := threat_info,
          size := dataSize content, quarantine_path := quarantine_path }
      if fl.saveMeta then (false, s1)
      else
        let s2 : QMState := { s1 with metadata := amSet s1.metadata quarantine_name entry }
        match secureDelete fl s2.files file_path with
        | (ok, files') => (ok, { s2 with files := files' })

/-- `QuarantineManager.restore_file` (the `force` flag only controls a
log line). -/
def qmRestoreFile (fl : FailSpec) (quarantine_name : String) (s : QMState) :
    Bool × QMState :=
  match amGet s.metadata quarantine_name with
  | none => (false, s)
  | some entry =>
    match amGet s.files entry.quarantine_path with
    | none => (false, s)
    | some blob =>
      match fernetDecrypt s.key blob with
      | none => (false, s)
      | some content =>
        if fl.writeFile then (false, s)
        else
          let s1 : QMState := { s with files := amSet s.files entry.original_path content }
          if fl.unlink then (false, s1)
          else
            let s2 : QMState := { s1 with files := amRemove s1.files entry.quarantine_path }
            if fl.saveMeta then (false, s2)
            else (true, { s2 with metadata := amRemove s2.metadata quarantine_name })

/-- `QuarantineManager.delete_quarantined_file`. -/
def qmDeleteQuarantined (fl : FailSpec) (quarantine_name : String) (s : QMState) :
    Bool × QMState :=
  match amGet s.metadata quarantine_name with
  | none => (false, s)
  | some entry =>
    match secureDelete fl s.files entry.quarantine_path with
    | (false, files') => (false, { s with files := files' })
    | (true, files') =>
      if fl.saveMeta then (false, { s with files := files' })
      else
        (true,
         { s with
           files := files'
           metadata := amRemove s.metadata quarantine_name })

/-- The spec's metadata/blob coupling: every metadata entry has its
encrypted blob on disk, and every file inside the quarantine directory
is the blob of some entry. -/
def entryIffBlob (s : QMState) : Prop :=
  (∀ e ∈ s.metadata, amGet s.files (e.2.quarantine_path) ≠ none) ∧
  (∀ f ∈ s.files, pyStartswith f.1 "quarantine/" = true →
    ∃ e ∈ s.metadata, e.2.quarantine_path = f.1)

/-- Strengthened invariant actually maintained by successful mutations:
additionally, each entry is stored under its quarantine name and records
an original path outside the quarantine directory. -/
def qmInv (s : QMState) : Prop :=
  entryIffBlob s ∧
  ∀ e ∈ s.metadata,
    e.2.quarantine_path = "quarantine/" ++ e.1 ∧
    pyStartswith e.2.original_path "quarantine/" = false

instance (s : QMState) : Decidable (entryIffBlob s) := by
  unfold entryIffBlob; infer_instance

instance (s : QMState) : Decidable (qmInv s) := by
  unfold qmInv; infer_instance

/-- Initial state for the C1 counterexample: one infected file on disk,
empty quarantine. -/
def qmStateCex : QMState :=
  { files := [("home/evil.bin", .raw [77, 90, 144])], metadata := [], key := 7 }

/-- A store satisfying the metadata/blob invariant: one quarantined
entry with its blob, plus one ordinary file. -/
def qmStateWit : QMState :=
  { files := [("quarantine/q1", .enc 7 (.raw [1])), ("home/evil.bin", .raw [77, 90, 144])]
    metadata := [("q1",
      { original_path := "home/old.bin", timestamp := "t", file_hash := "h",
        threat_info := [], size := 1, quarantine_path := "quarantine/q1" })]
    key := 7 }

/-! ## Engine quarantine round trip (`ScanEngine.quarantine_file` /
`ScanEngine.restore_file` in `src/core/engine.py`) -/

/-- One file as the engine sees it: content plus `st_mode` bits. -/
structure EngFile where
  data : FileData
  mode : Nat
  deriving Repr, DecidableEq

/-- Mode bits of files newly created by the engine (irrelevant to the
claims). -/
def defaultMode : Nat := 420

/-- A quarantine metadata record of the engine (`metadata[quarantine_name]`
dict).  `encryption_key` stores the Fernet key; the base64
encode/decode round trip of the source is the identity on the key. -/
structure EngEntry where
  original_path : String
  timestamp : String
  file_hash : String
  threat_info : List Threat
  original_permissions : Nat
  encryption_key : Nat
  deriving Repr, DecidableEq

/-- Engine state: filesystem, quarantine metadata mapping, process key. -/
structure EngState where
  files : List (String × EngFile)
  metadata : List (String × EngEntry)
  quarantine_key : Nat
  deriving Repr, DecidableEq

/-- `ScanEngine.quarantine_file` (success path runs straight through;
a missing source file raises into the `except` and returns `False`).
`sha` abstracts `calculate_file_hash`. -/
def engQuarantineFile (sha : FileData → String) (timestamp file_path : String)
    (threats : List Threat) (s : EngState) : Bool × EngState :=
  match amGet s.files file_path with
  | none => (false, s)
  | some ef =>
    let file_hash := sha ef.data
    let quarantine_name := timestamp ++ "_" ++ file_hash.take 8 ++ "_" ++ pathName file_path
    let quarantine_file := "quarantine/" ++ quarantine_name
    let encrypted := fernetEncrypt s.quarantine_key ef.data
    let files1 := amSet s.files quarantine_file { data := encrypted, mode := defaultMode }
    let entry : EngEntry :=
      { original_path := file_path, timestamp := timestamp, file_hash := file_hash,
        threat_info := threats, original_permissions := ef.mode,
        encryption_key := s.quarantine_key }
    let meta1 := amSet s.metadata quarantine_name entry
    -- secure delete of the original follows the metadata write
    (true, { files := amRemove files1 file_path, metadata := meta1,
             quarantine_key := s.quarantine_key })

/-- `ScanEngine.restore_file`: decrypt the blob with the key recorded in
the metadata, write it back, restore permissions, then unlink the blob
and drop the entry. -/
def engRestoreFile (quarantine_name : String) (s : EngState) : Bool × EngState :=
  match amGet s.metadata quarantine_name with
  | none => (false, s)
  | some file_meta =>
    match amGet s.files ("quarantine/" ++ quarantine_name) with
    | none => (false, s)
    | some blob =>
      match fernetDecrypt file_meta.encryption_key blob.data with
      | none => (false, s)
      | some content =>
        (true,
         { files := amRemove
             (amSet s.files file_meta.original_path
               { data := content, mode := file_meta.original_permissions })
             ("quarantine/" ++ quarantine_name)
           metadata := amRemove s.metadata quarantine_name
           quarantine_key := s.quarantine_key })

/-! ## Helper lemmas -/

theorem amGet_amRemove {β : Type} (l : List (String × β)) (k k' : String) :
    amGet (amRemove l k) k' = if k' = k then none else amGet l k' := by
  induction l with
  | nil => simp [amGet, amRemove]
  | cons e es ih =>
    by_cases he : e.1 = k
    · rw [amRemove, if_pos he, ih]
      by_cases hk : k' = k
      · simp [hk]
      · rw [if_neg hk, if_neg hk, amGet, if_neg (fun h : e.1 = k' => hk (by rw [← h]; exact he))]
    · rw [amRemove, if_neg he]
      by_cases he' : e.1 = k'
      · rw [amGet, if_pos he', if_neg (fun h : k' = k => he (by rw [he']; exact h)), amGet,
          if_pos he']
      · rw [amGet, if_neg he', ih, amGet, if_neg he']

theorem amGet_amRemove_self {β : Type} (l : List (String × β)) (k : String) :
    amGet (amRemove l k) k = none := by
  simp [amGet_amRemove]

theorem amGet_amRemove_ne {β : Type} (l : List (String × β)) (k k' : String)
    (h : k' ≠ k) : amGet (amRemove l k) k' = amGet l k' := by
  simp [amGet_amRemove, h]

theorem amGet_amSet_self {β : Type} (l : List (String × β)) (k : String) (v : β) :
    amGet (amSet l k v) k = some v := by
  simp [amGet, amSet]

theorem amGet_amSet_ne {β : Type} (l : List (String × β)) (k k' : String) (v : β)
    (h : k' ≠ k) : amGet (amSet l k v) k' = amGet l k' := by
  rw [amSet, amGet, if_neg (fun hh : k = k' => h hh.symm), amGet_amRemove_ne _ _ _ h]

theorem mem_amRemove {β : Type} (l : List (String × β)) (k : String)
    (e : String × β) : e ∈ amRemove l k ↔ e ∈ l ∧ e.1 ≠ k := by
  induction l with
  | nil => simp [amRemove]
  | cons f fs ih =>
    by_cases hf : f.1 = k
    · rw [amRemove, if_pos hf]
      simp only [ih, List.mem_cons]
      constructor
      · exact fun ⟨h1, h2⟩ => ⟨Or.inr h1, h2⟩
      · rintro ⟨rfl | h1, h2⟩
        · exact absurd hf h2
        · exact ⟨h1, h2⟩
    · rw [amRemove, if_neg hf]
      simp only [List.mem_cons, ih]
      constructor
      · rintro (rfl | ⟨h1, h2⟩)
        · exact ⟨Or.inl rfl, hf⟩
        · exact ⟨Or.inr h1, h2⟩
      · rintro ⟨rfl | h1, h2⟩
        · exact Or.inl rfl
        · exact Or.inr ⟨h1, h2⟩

theorem mem_amSet {β : Type} (l : List (String × β)) (k : String) (v : β)
    (e : String × β) : e ∈ amSet l k v ↔ e = (k, v) ∨ (e ∈ l ∧ e.1 ≠ k) := by
  simp [amSet, mem_amRemove]

theorem amGet_ne_none_of_mem {β : Type} {l : List (String × β)} {k : String} {v : β}
    (h : (k, v) ∈ l) : amGet l k ≠ none := by
  induction l with
  | nil => simp at h
  | cons e es ih =>
    rcases List.mem_cons.1 h with rfl | h'
    · simp [amGet]
    · by_cases he : e.1 = k <;> simp [amGet, he, ih h']

theorem mem_of_amGet_eq_some {β : Type} {l : List (String × β)} {k : String} {v : β}
    (h : amGet l k = some v) : (k, v) ∈ l := by
  induction l with
  | nil => simp [amGet] at h
  | cons e es ih =>
    by_cases he : e.1 = k
    · rw [amGet, if_pos he] at h
      exact List.mem_cons.2 (Or.inl (by cases e; cases h; cases he; rfl))
    · rw [amGet, if_neg he] at h
      exact List.mem_cons.2 (Or.inr (ih h))

/-- A string with the `quarantine/` path guard set apart from one without
it: they differ. -/
theorem ne_of_pyStartswith {a b : String} (ha : pyStartswith a "quarantine/" = true)
    (hb : pyStartswith b "quarantine/" = false) : a ≠ b := by
  intro h; rw [h] at ha; rw [ha] at hb; cases hb

theorem pyStartswith_append_self (a b : String) :
    pyStartswith (a ++ b) a = true := by
  have : (a ++ b).data = a.data ++ b.data := String.data_append a b
  unfold pyStartswith
  rw [this]
  induction a.data with
  | nil => rfl
  | cons c cs ih => simpa [pyPrefixList] using ih

/-- Left cancellation for string append. -/
theorem string_append_left_cancel {a b c : String} (h : a ++ b = a ++ c) : b = c := by
  have hd : a.data ++ b.data = a.data ++ c.data := by
    rw [← String.data_append, ← String.data_append, h]
  have := List.append_cancel_left hd
  cases b; cases c; exact congrArg String.mk this

/-- No issue string built by `_check_system_health` carries the
`Critical` dispatch tag: the only `Critical`-prefixed issue would come
from a non-running critical service, and `_check_critical_services`
always reports every service as running. -/
theorem issues_not_critical (th : HealthThresholds) (s : HealthSample) :
    ∀ i ∈ healthIssues th s, pyStartswith i "Critical" = false := by
  intro i hi
  unfold healthIssues at hi
  rcases List.mem_append.1 hi with h4 | h5
  · rcases List.mem_append.1 h4 with h3 | hTemp
    · rcases List.mem_append.1 h3 with h2 | hCpu
      · rcases List.mem_append.1 h2 with hDisk | hMem
        · split at hDisk <;> simp at hDisk
          subst hDisk; rfl
        · split at hMem <;> simp at hMem
          subst hMem; rfl
      · split at hCpu <;> simp at hCpu
        subst hCpu; rfl
    · rcases hT : s.cpu_temp with _ | t <;> rw [hT] at hTemp
      · simp at hTemp
      · split at hTemp <;> simp at hTemp
        · obtain ⟨-, rfl⟩ := hTemp; rfl
  · simp [checkCriticalServices, critical_services] at h5

/-- C3 counterexample: with 500 MiB free disk (below the 1 GiB
threshold) and all other telemetry nominal, `_check_system_health`
reports overall status `"warning"`, not `"critical"`, and no issue in
the result is `Critical`-tagged — contrary to the claim. -/
theorem C3_counterexample :
    sampleLowDisk.disk_free < defaultThresholds.min_disk_space ∧
    (checkSystemHealth defaultThresholds sampleLowDisk).status = "warning" ∧
    (checkSystemHealth defaultThresholds sampleLowDisk).issues.any
      (fun i => pyStartswith i "Critical") = false := by
  refine ⟨by decide, ?_, ?_⟩ <;> rfl

/-- C3 amended: a health evaluation of a sample whose free disk space is
below 1 GiB yields a `"Low disk space"` issue, but that issue is not
`Critical`-tagged, so the overall status is `"warning"`, not
`"critical"`. -/
theorem C3_low_disk_yields_warning (s : HealthSample)
    (h : s.disk_free < 1024 * 1024 * 1024) :
    (∃ i ∈ (checkSystemHealth defaultThresholds s).issues,
        pyStartswith i "Low disk space" = true) ∧
    (checkSystemHealth defaultThresholds s).status = "warning" := by
  have hmem : ("Low disk space: " ++ fmt1 ((s.disk_free : ℚ) / 1024 / 1024 / 1024) ++ "GB free")
      ∈ healthIssues defaultThresholds s := by
    unfold healthIssues
    refine List.mem_append_left _ (List.mem_append_left _ (List.mem_append_left _
      (List.mem_append_left _ ?_)))
    rw [if_pos (show s.disk_free < defaultThresholds.min_disk_space from h)]
    exact List.mem_singleton_self _
  have hnc : (healthIssues defaultThresholds s).any
      (fun i => pyStartswith i "Critical") = false := by
    rw [List.any_eq_false]
    intro i hi
    simp [issues_not_critical defaultThresholds s i hi]
  refine ⟨⟨_, hmem, rfl⟩, ?_⟩
  show overallStatus (healthIssues defaultThresholds s) = "warning"
  unfold overallStatus
  rw [hnc]
  have hne : (healthIssues defaultThresholds s).isEmpty = false :=
    List.isEmpty_eq_false_iff_exists_mem.2 ⟨_, hmem⟩
  simp [hne]

/-- Witness for the amended C3 theorem at the concrete low-disk sample. -/
theorem C3_low_disk_yields_warning_witness :
    sampleLowDisk.disk_free < 1024 * 1024 * 1024 ∧
    ((∃ i ∈ (checkSystemHealth defaultThresholds sampleLowDisk).issues,
        pyStartswith i "Low disk space" = true) ∧
      (checkSystemHealth defaultThresholds sampleLowDisk).status = "warning") :=
  ⟨by decide, C3_low_disk_yields_warning sampleLowDisk (by decide)⟩

/-- C6: while throttled with at least one active rule and elapsed time
below the maximum cooldown among the active rules, `check_resources`
returns `True` with the state unchanged and without consulting any
resource metric — the result is the same for every reading `m`. -/
theorem C6_throttled_before_cooldown (s : ThrottlerState) (now t0 c : ℚ)
    (m : ResourceReading)
    (hlock : s.lockHeld = false)
    (hthr : s.is_throttled = true)
    (hstart : s.throttle_start = some t0)
    (hmax : (s.current_rules.map (fun r => (r.cooldown : ℚ))).maximum = some c)
    (helapsed : now - t0 < c) :
    checkResources s now m =
      some { result := true, state := s, sampledMetrics := false } := by
  have hc : c ∈ s.current_rules.map (fun r => (r.cooldown : ℚ)) := List.maximum_mem hmax
  obtain ⟨r, hr, hrc⟩ := List.mem_map.1 hc
  have hany : s.current_rules.any (fun r => decide (now - t0 < (r.cooldown : ℚ))) = true :=
    List.any_eq_true.2 ⟨r, hr, decide_eq_true (hrc ▸ helapsed)⟩
  simp [checkResources, hlock, hthr, hstart, hany]

/-- Witness for C6 at a concrete throttled state: cpu rule active
(cooldown 30s) since time 0, queried at time 10 under a 95% CPU load. -/
theorem C6_throttled_before_cooldown_witness :
    checkResources
      { lockHeld := false, is_throttled := true, throttle_start := some 0,
        current_rules := [{ resource := "cpu", threshold := 80, reduction := 1/2,
                            cooldown := 30, priority := 8 }],
        rules := defaultThrottleRules } 10 highCpuReading =
      some { result := true
             state := { lockHeld := false, is_throttled := true, throttle_start := some 0,
                        current_rules := [{ resource := "cpu", threshold := 80,
                                            reduction := 1/2, cooldown := 30, priority := 8 }],
                        rules := defaultThrottleRules }
             sampledMetrics := false } :=
  C6_throttled_before_cooldown _ 10 0 30 _ rfl rfl rfl (by decide) (by norm_num)

/-- C5: when `check_resources` runs while throttled and every active
rule's cooldown has elapsed, the call never returns: `release_throttle`
re-acquires the non-reentrant `throttle_lock` that `check_resources`
already holds, so the thread blocks forever.  In particular the claimed
clear-then-re-evaluate never happens (and the post-release code would
`return False` immediately rather than fall through).  Evaluated at a
state whose single active cpu rule (cooldown 30s, activated at time 0)
is queried at time 31 under a 95% CPU load that a re-evaluation would
have flagged. -/
theorem C5_cooldown_expiry_blocks :
    checkResources throttledExpiredState 31 highCpuReading = none := by
  have h : ¬ ((31 : ℚ) - 0 < 30) := by norm_num
  simp [checkResources, throttledExpiredState, h]

/-- C7: when a non-throttled `check_resources` finds a triggered rule,
the call never returns and no callback runs: `apply_throttle` opens
`with self.throttle_lock` while `check_resources` already holds that
non-reentrant lock, blocking before any state update or callback.
Evaluated at the idle default-rule state under a 95% CPU load
(above the 80% cpu threshold). -/
theorem C7_trigger_blocks_before_callbacks :
    checkResources idleThrottlerState 0 highCpuReading = none := by
  have hcpu : ((95 : ℚ) > 80) := by norm_num
  simp [checkResources, idleThrottlerState, sampleAndCheckTriggers, getRule,
    defaultThrottleRules, highCpuReading, List.find?, hcpu]

/-- C8: `adjust_intensity` is a no-op returning no profile both (a) when
called within the 5-minute cooldown window, and (b) when the selected
profile equals the current one — in either case the state, including the
last-adjustment timestamp, is unchanged. -/
theorem C8_adjust_intensity_idempotent (st : IntensityState) (now : ℚ)
    (health : Option HealthDict) :
    (now - st.last_adjustment < adjustment_cooldown →
      adjustIntensity st now health = (none, st)) ∧
    (∀ h, health = some h → selectProfile h = st.current_profile →
      adjustIntensity st now health = (none, st)) := by
  constructor
  · intro hc
    simp [adjustIntensity, hc]
  · rintro h rfl hsel
    by_cases hc : now - st.last_adjustment < adjustment_cooldown
    · simp [adjustIntensity, hc]
    · simp [adjustIntensity, hc, hsel]

/-- Witness for C8: a second call 100s after an adjustment at time 0
returns no profile, and a call past the cooldown whose health selects
the already-current `balanced` profile returns no profile and keeps the
timestamp. -/
theorem C8_adjust_intensity_idempotent_witness :
    adjustIntensity ⟨"balanced", 0⟩ 100 none = (none, ⟨"balanced", 0⟩) ∧
    adjustIntensity ⟨"balanced", 0⟩ 400
      (some ⟨"warning", 60, 50, 80⟩) = (none, ⟨"balanced", 0⟩) :=
  ⟨(C8_adjust_intensity_idempotent ⟨"balanced", 0⟩ 100 none).1
      (by norm_num [adjustment_cooldown]),
   (C8_adjust_intensity_idempotent ⟨"balanced", 0⟩ 400 (some ⟨"warning", 60, 50, 80⟩)).2
      ⟨"warning", 60, 50, 80⟩ rfl (by
        have hs1 : ("warning" : String) ≠ "critical" := by decide
        have hs2 : ("warning" : String) ≠ "healthy" := by decide
        norm_num [selectProfile, hs1, hs2])⟩

/-- Truncation bound: `int(q) ≤ n` whenever `q ≤ n`. -/
theorem pyInt_le_of_le {q : ℚ} {n : Nat} (h : q ≤ (n : ℚ)) : pyInt q ≤ n := by
  unfold pyInt
  rw [Int.toNat_le]
  calc ⌊q⌋ ≤ ⌊(n : ℚ)⌋ := Int.floor_le_floor h
    _ = (n : ℤ) := by rw [Int.floor_natCast]

/-- Truncation bound: `n ≤ int(q)` whenever `n ≤ q`. -/
theorem le_pyInt_of_le {n : Nat} {q : ℚ} (h : (n : ℚ) ≤ q) : n ≤ pyInt q := by
  unfold pyInt
  have h1 : (n : ℤ) ≤ ⌊q⌋ := Int.le_floor.2 (by exact_mod_cast h)
  omega

/-- Each single batch-size mutation preserves the configured bounds. -/
theorem optStep_bounds (op : OptimizerOp) (bs : Nat) (hop : validOp op)
    (h1 : min_batch_size ≤ bs) (h2 : bs ≤ max_batch_size) :
    min_batch_size ≤ optStep op bs ∧ optStep op bs ≤ max_batch_size := by
  have hbs0 : (0 : ℚ) ≤ (bs : ℚ) := by positivity
  cases op with
  | adjustBatch t fps =>
    show min_batch_size ≤ adjust_batch_size t fps bs ∧
      adjust_batch_size t fps bs ≤ max_batch_size
    unfold adjust_batch_size
    split_ifs with hslow hfast
    · refine ⟨Nat.le_max_left _ _, Nat.max_le.2 ⟨by norm_num [min_batch_size, max_batch_size], ?_⟩⟩
      refine le_trans (pyInt_le_of_le ?_) h2
      exact mul_le_of_le_one_right hbs0 (by norm_num)
    · refine ⟨Nat.le_min.2 ⟨by norm_num [min_batch_size, max_batch_size], ?_⟩,
        Nat.min_le_left _ _⟩
      refine le_trans h1 (le_pyInt_of_le ?_)
      exact le_mul_of_one_le_right hbs0 (by norm_num)
    · exact ⟨h1, h2⟩
  | memoryThrottle r =>
    obtain ⟨hr0, hr1⟩ := hop
    show min_batch_size ≤ handle_memory_throttle r bs ∧
      handle_memory_throttle r bs ≤ max_batch_size
    unfold handle_memory_throttle
    refine ⟨Nat.le_max_left _ _, Nat.max_le.2 ⟨by norm_num [min_batch_size, max_batch_size], ?_⟩⟩
    refine le_trans (pyInt_le_of_le ?_) h2
    exact mul_le_of_le_one_right hbs0 (by linarith)

/-- C10: starting from the initial batch size 1000, every sequence of
`adjust_batch_size` calls and memory-throttle callbacks (with reduction
fractions in `[0, 1]`) keeps the batch size within
`[min_batch_size, max_batch_size] = [100, 5000]`. -/
theorem C10_batch_size_invariant (ops : List OptimizerOp)
    (hops : ∀ op ∈ ops, validOp op) :
    min_batch_size ≤ runOptimizerOps ops ∧ runOptimizerOps ops ≤ max_batch_size := by
  suffices H : ∀ (l : List OptimizerOp) (bs : Nat), (∀ op ∈ l, validOp op) →
      min_batch_size ≤ bs → bs ≤ max_batch_size →
      min_batch_size ≤ l.foldl (fun bs op => optStep op bs) bs ∧
        l.foldl (fun bs op => optStep op bs) bs ≤ max_batch_size by
    exact H ops initial_batch_size hops
      (by norm_num [min_batch_size, initial_batch_size])
      (by norm_num [max_batch_size, initial_batch_size])
  intro l
  induction l with
  | nil => exact fun bs _ hh1 hh2 => ⟨hh1, hh2⟩
  | cons op rest ih =>
    intro bs hv hh1 hh2
    obtain ⟨s1, s2⟩ := optStep_bounds op bs (hv op (List.mem_cons_self op rest)) hh1 hh2
    exact ih (optStep op bs) (fun o ho => hv o (List.mem_cons_of_mem op ho)) s1 s2

/-- Witness for C10 at a concrete mutation sequence: a slowdown
adjustment, a 40% memory-throttle shrink, and a speed-up adjustment. -/
theorem C10_batch_size_invariant_witness :
    min_batch_size ≤ runOptimizerOps
        [.adjustBatch 1000 100, .memoryThrottle (2/5), .adjustBatch 1000 2000] ∧
      runOptimizerOps
        [.adjustBatch 1000 100, .memoryThrottle (2/5), .adjustBatch 1000 2000]
        ≤ max_batch_size :=
  C10_batch_size_invariant _ (by
    intro op hop
    rcases List.mem_cons.1 hop with rfl | hop
    · trivial
    rcases List.mem_cons.1 hop with rfl | hop
    · exact ⟨by norm_num, by norm_num⟩
    rcases List.mem_cons.1 hop with rfl | hop
    · trivial
    · simp at hop)

/-- C2: for every existing regular file of size at most 100 MiB whose
content hash is in the known-bad set, `scan_file` reports status
`infected` and a `known_malware` threat of severity 10, for every
extension (the suffix of `f` is unconstrained). -/
theorem C2_known_hash_infected (cfg : ScanConfig) (f : FileInfo)
    (hex : f.fileExists = true) (hreg : f.is_file = true)
    (hsize : f.size ≤ 100 * 1024 * 1024)
    (hhash : cfg.sha256 f.content ∈ cfg.hashes) :
    (scanFile cfg f).status = "infected" ∧
    ({ type := "known_malware", details := "File matches known malware signature",
       severity := 10 } : Threat) ∈ (scanFile cfg f).threats := by
  have hs : ¬ f.size > 100 * 1024 * 1024 := by omega
  unfold scanFile
  simp only [hex, hreg, and_self, not_true_eq_false, if_false, hs, if_pos hhash]
  constructor
  · rw [if_pos]
    intro hempty
    rw [List.isEmpty_iff] at hempty
    have := List.append_eq_nil.1 (List.append_eq_nil.1 (List.append_eq_nil.1 hempty).1).1
    exact List.cons_ne_nil _ _ this.2
  · exact List.mem_append_left _ (List.mem_append_left _
      (List.mem_append_right _ (List.mem_singleton_self _)))

/-- Witness for C2: a one-byte `.txt` file whose hash is in the bad set
(hashing abstracted to a constant function for the concrete check). -/
theorem C2_known_hash_infected_witness :
    (scanFile
      { hashes := ["deadbeef"], patterns := [], suspicious_extensions := [".exe"],
        yara := none, sha256 := fun _ => "deadbeef", magic := none }
      { path := "doc/report.txt", fileExists := true, is_file := true,
        size := 1, suffix := ".txt", content := [7] }).status = "infected" ∧
    ({ type := "known_malware", details := "File matches known malware signature",
       severity := 10 } : Threat) ∈
      (scanFile
        { hashes := ["deadbeef"], patterns := [], suspicious_extensions := [".exe"],
          yara := none, sha256 := fun _ => "deadbeef", magic := none }
        { path := "doc/report.txt", fileExists := true, is_file := true,
          size := 1, suffix := ".txt", content := [7] }).threats :=
  C2_known_hash_infected _ _ rfl rfl (by norm_num) (List.mem_singleton_self _)

/-- C9: for every existing regular file strictly larger than 100 MiB,
`scan_file` returns `skipped` with no threats, reads no content, and its
result does not depend on the file's bytes at all. -/
theorem C9_large_file_skipped (cfg : ScanConfig) (f : FileInfo)
    (hex : f.fileExists = true) (hreg : f.is_file = true)
    (hsize : f.size > 100 * 1024 * 1024) :
    (scanFile cfg f).status = "skipped" ∧
    (scanFile cfg f).readContent = false ∧
    (scanFile cfg f).threats = [] ∧
    ∀ c : List Nat, scanFile cfg { f with content := c } = scanFile cfg f := by
  unfold scanFile
  simp [hex, hreg, hsize]

/-- Witness for C9 at a concrete 100 MiB + 1 byte file. -/
theorem C9_large_file_skipped_witness :
    (scanFile
      { hashes := ["deadbeef"], patterns := [], suspicious_extensions := [".exe"],
        yara := none, sha256 := fun _ => "deadbeef", magic := none }
      { path := "big.bin", fileExists := true, is_file := true,
        size := 100 * 1024 * 1024 + 1, suffix := ".bin", content := [7] }).status
      = "skipped" ∧
    (scanFile
      { hashes := ["deadbeef"], patterns := [], suspicious_extensions := [".exe"],
        yara := none, sha256 := fun _ => "deadbeef", magic := none }
      { path := "big.bin", fileExists := true, is_file := true,
        size := 100 * 1024 * 1024 + 1, suffix := ".bin", content := [7] }).readContent
      = false :=
  have h := C9_large_file_skipped
    { hashes := ["deadbeef"], patterns := [], suspicious_extensions := [".exe"],
      yara := none, sha256 := fun _ => "deadbeef", magic := none }
    { path := "big.bin", fileExists := true, is_file := true,
      size := 100 * 1024 * 1024 + 1, suffix := ".bin", content := [7] }
    rfl rfl (by norm_num)
  ⟨h.1, h.2.1⟩

/-- C4: quarantining a file and then restoring it under the generated
quarantine name succeeds and writes back exactly the original bytes (and
mode bits), so re-hashing the restored content reproduces the content
hash recorded in the metadata at quarantine time, for any hash function
`sha`.  The hypothesis keeps the original outside the quarantine
directory, as every caller does. -/
theorem C4_quarantine_restore_roundtrip
    (sha : FileData → String) (ts fp : String) (threats : List Threat)
    (s : EngState) (d : FileData) (mode : Nat)
    (horig : amGet s.files fp = some { data := d, mode := mode })
    (hfp : pyStartswith fp "quarantine/" = false) :
    (engQuarantineFile sha ts fp threats s).1 = true ∧
    (engRestoreFile (ts ++ "_" ++ (sha d).take 8 ++ "_" ++ pathName fp)
        (engQuarantineFile sha ts fp threats s).2).1 = true ∧
    ∃ e restored,
      amGet (engQuarantineFile sha ts fp threats s).2.metadata
          (ts ++ "_" ++ (sha d).take 8 ++ "_" ++ pathName fp) = some e ∧
      amGet (engRestoreFile (ts ++ "_" ++ (sha d).take 8 ++ "_" ++ pathName fp)
          (engQuarantineFile sha ts fp threats s).2).2.files fp = some restored ∧
      restored.data = d ∧ restored.mode = mode ∧
      e.file_hash = sha d ∧ sha restored.data = e.file_hash := by
  have hne : ("quarantine/" ++ (ts ++ "_" ++ (sha d).take 8 ++ "_" ++ pathName fp)) ≠ fp :=
    ne_of_pyStartswith (pyStartswith_append_self _ _) hfp
  have hdec : fernetDecrypt s.quarantine_key (fernetEncrypt s.quarantine_key d) = some d := by
    simp [fernetEncrypt, fernetDecrypt]
  simp only [engQuarantineFile, horig, engRestoreFile, amGet_amSet_self,
    amGet_amRemove_ne _ _ _ hne, amGet_amRemove_ne _ _ _ (Ne.symm hne), hdec]
  refine ⟨trivial, trivial, ?_⟩
  exact ⟨_, _, rfl, rfl, rfl, rfl, rfl, rfl⟩

/-- Witness for C4: a two-byte file at `home/x` quarantined at timestamp
`"t"` under key 5 and restored. -/
theorem C4_quarantine_restore_roundtrip_witness :
    (engQuarantineFile (fun _ => "aaaaaaaa") "t" "home/x" []
        { files := [("home/x", { data := .raw [1, 2], mode := 33188 })],
          metadata := [], quarantine_key := 5 }).1 = true ∧
    (engRestoreFile ("t" ++ "_" ++ ("aaaaaaaa" : String).take 8 ++ "_" ++ pathName "home/x")
        (engQuarantineFile (fun _ => "aaaaaaaa") "t" "home/x" []
          { files := [("home/x", { data := .raw [1, 2], mode := 33188 })],
            metadata := [], quarantine_key := 5 }).2).1 = true ∧
    ∃ e restored,
      amGet (engQuarantineFile (fun _ => "aaaaaaaa") "t" "home/x" []
          { files := [("home/x", { data := .raw [1, 2], mode := 33188 })],
            metadata := [], quarantine_key := 5 }).2.metadata
          ("t" ++ "_" ++ ("aaaaaaaa" : String).take 8 ++ "_" ++ pathName "home/x") = some e ∧
      amGet (engRestoreFile
          ("t" ++ "_" ++ ("aaaaaaaa" : String).take 8 ++ "_" ++ pathName "home/x")
          (engQuarantineFile (fun _ => "aaaaaaaa") "t" "home/x" []
            { files := [("home/x", { data := .raw [1, 2], mode := 33188 })],
              metadata := [], quarantine_key := 5 }).2).2.files "home/x" = some restored ∧
      restored.data = .raw [1, 2] ∧ restored.mode = 33188 ∧
      e.file_hash = "aaaaaaaa" ∧ (fun (_ : FileData) => "aaaaaaaa") restored.data = e.file_hash :=
  C4_quarantine_restore_roundtrip (fun _ => "aaaaaaaa") "t" "home/x" []
    { files := [("home/x", { data := .raw [1, 2], mode := 33188 })],
      metadata := [], quarantine_key := 5 } (.raw [1, 2]) 33188 (by decide) (by decide)

/-- Names injected under the quarantine directory are distinct exactly
when the names are. -/
theorem quarantine_path_inj {a b : String}
    (h : "quarantine/" ++ a = "quarantine/" ++ b) : a = b :=
  string_append_left_cancel h

/-- A fully successful `quarantine_file` preserves the metadata/blob
invariant (the quarantined file lives outside the quarantine
directory, as for every caller). -/
theorem qmQuarantine_preserves (hashFn : FileData → String) (ts fp : String)
    (ti : List Threat) (s : QMState) (hinv : qmInv s)
    (hfp : pyStartswith fp "quarantine/" = false) :
    qmInv (qmQuarantineFile hashFn noFail ts fp ti s).2 := by
  obtain ⟨⟨hEB, hBE⟩, hCl⟩ := hinv
  unfold qmQuarantineFile
  cases hget : amGet s.files fp with
  | none => exact ⟨⟨hEB, hBE⟩, hCl⟩
  | some content =>
    have hqp : pyStartswith ("quarantine/" ++ (ts ++ "_" ++ pathName fp)) "quarantine/" = true :=
      pyStartswith_append_self _ _
    have hne : ("quarantine/" ++ (ts ++ "_" ++ pathName fp)) ≠ fp :=
      ne_of_pyStartswith hqp hfp
    have hget2 : amGet (amSet s.files ("quarantine/" ++ (ts ++ "_" ++ pathName fp))
        (fernetEncrypt s.key content)) fp = some content := by
      rw [amGet_amSet_ne _ _ _ _ (Ne.symm hne)]; exact hget
    simp only [noFail, secureDelete, hget2, Bool.false_eq_true, if_false]
    refine ⟨⟨?_, ?_⟩, ?_⟩
    · -- every entry still has its blob
      intro e he
      rcases (mem_amSet _ _ _ _).1 he with rfl | ⟨hmem, hnamene⟩
      · rw [amGet_amRemove_ne _ _ _ hne, amGet_amSet_self]
        exact Option.some_ne_none _
      · obtain ⟨hq1, -⟩ := hCl e hmem
        have hestart : pyStartswith e.2.quarantine_path "quarantine/" = true := by
          rw [hq1]; exact pyStartswith_append_self _ _
        have hefp : e.2.quarantine_path ≠ fp := ne_of_pyStartswith hestart hfp
        rw [amGet_amRemove_ne _ _ _ hefp]
        by_cases heq : e.2.quarantine_path = "quarantine/" ++ (ts ++ "_" ++ pathName fp)
        · rw [heq, amGet_amSet_self]; exact Option.some_ne_none _
        · rw [amGet_amSet_ne _ _ _ _ heq]; exact hEB e hmem
    · -- every quarantine-directory file is some entry's blob
      intro f hf hstart
      obtain ⟨hf1, hffp⟩ := (mem_amRemove _ _ _).1 hf
      rcases (mem_amSet _ _ _ _).1 hf1 with rfl | ⟨hmem, hfqp⟩
      · exact ⟨(ts ++ "_" ++ pathName fp,
          { original_path := fp, timestamp := ts, file_hash := hashFn content,
            threat_info := ti, size := dataSize content,
            quarantine_path := "quarantine/" ++ (ts ++ "_" ++ pathName fp) }),
          (mem_amSet _ _ _ _).2 (Or.inl rfl), rfl⟩
      · obtain ⟨e, hemem, heq⟩ := hBE f hmem hstart
        have hename : e.1 ≠ ts ++ "_" ++ pathName fp := by
          intro hh
          obtain ⟨hq1, -⟩ := hCl e hemem
          exact hfqp (heq ▸ (hh ▸ hq1 : e.2.quarantine_path = _))
        exact ⟨e, (mem_amSet _ _ _ _).2 (Or.inr ⟨hemem, hename⟩), heq⟩
    · -- entries keep their shape
      intro e he
      rcases (mem_amSet _ _ _ _).1 he with rfl | ⟨hmem, -⟩
      · exact ⟨rfl, hfp⟩
      · exact hCl e hmem

/-- A fully successful `restore_file` preserves the metadata/blob
invariant. -/
theorem qmRestore_preserves (qn : String) (s : QMState) (hinv : qmInv s) :
    qmInv (qmRestoreFile noFail qn s).2 := by
  obtain ⟨⟨hEB, hBE⟩, hCl⟩ := hinv
  cases hget : amGet s.metadata qn with
  | none =>
    simp only [qmRestoreFile, hget]
    exact ⟨⟨hEB, hBE⟩, hCl⟩
  | some entry =>
    obtain ⟨he1, he2⟩ := hCl (qn, entry) (mem_of_amGet_eq_some hget)
    cases hblob : amGet s.files entry.quarantine_path with
    | none =>
      simp only [qmRestoreFile, hget, hblob]
      exact ⟨⟨hEB, hBE⟩, hCl⟩
    | some blob =>
      cases hdec : fernetDecrypt s.key blob with
      | none =>
        simp only [qmRestoreFile, hget, hblob, hdec]
        exact ⟨⟨hEB, hBE⟩, hCl⟩
      | some content =>
        simp only [qmRestoreFile, hget, hblob, hdec, noFail, Bool.false_eq_true, if_false]
        refine ⟨⟨?_, ?_⟩, ?_⟩
        · intro e he
          obtain ⟨hmem, hene⟩ := (mem_amRemove _ _ _).1 he
          obtain ⟨hq1, -⟩ := hCl e hmem
          have heqp : e.2.quarantine_path ≠ entry.quarantine_path := by
            rw [hq1, he1]
            exact fun hh => hene (quarantine_path_inj hh)
          have heor : e.2.quarantine_path ≠ entry.original_path :=
            ne_of_pyStartswith (hq1 ▸ pyStartswith_append_self _ _) he2
          rw [amGet_amRemove_ne _ _ _ heqp, amGet_amSet_ne _ _ _ _ heor]
          exact hEB e hmem
        · intro f hf hstart
          obtain ⟨hf1, hfqp⟩ := (mem_amRemove _ _ _).1 hf
          rcases (mem_amSet _ _ _ _).1 hf1 with rfl | ⟨hmem, -⟩
          · exact absurd hstart (by simp [he2])
          · obtain ⟨e, hemem, heq⟩ := hBE f hmem hstart
            have hename : e.1 ≠ qn := by
              intro hh
              obtain ⟨hq1, -⟩ := hCl e hemem
              exact hfqp (heq ▸ (hq1.trans (by rw [hh, ← he1]) :
                e.2.quarantine_path = entry.quarantine_path))
            exact ⟨e, (mem_amRemove _ _ _).2 ⟨hemem, hename⟩, heq⟩
        · intro e he
          exact hCl e ((mem_amRemove _ _ _).1 he).1

/-- A fully successful `delete_quarantined_file` preserves the
metadata/blob invariant. -/
theorem qmDelete_preserves (qn : String) (s : QMState) (hinv : qmInv s) :
    qmInv (qmDeleteQuarantined noFail qn s).2 := by
  obtain ⟨⟨hEB, hBE⟩, hCl⟩ := hinv
  cases hget : amGet s.metadata qn with
  | none =>
    simp only [qmDeleteQuarantined, hget]
    exact ⟨⟨hEB, hBE⟩, hCl⟩
  | some entry =>
    obtain ⟨he1, -⟩ := hCl (qn, entry) (mem_of_amGet_eq_some hget)
    cases hblob : amGet s.files entry.quarantine_path with
    | none => exact absurd hblob (hEB (qn, entry) (mem_of_amGet_eq_some hget))
    | some b =>
      simp only [qmDeleteQuarantined, hget, secureDelete, hblob, noFail,
        Bool.false_eq_true, if_false]
      refine ⟨⟨?_, ?_⟩, ?_⟩
      · intro e he
        obtain ⟨hmem, hene⟩ := (mem_amRemove _ _ _).1 he
        obtain ⟨hq1, -⟩ := hCl e hmem
        have heqp : e.2.quarantine_path ≠ entry.quarantine_path := by
          rw [hq1, he1]
          exact fun hh => hene (quarantine_path_inj hh)
        rw [amGet_amRemove_ne _ _ _ heqp]
        exact hEB e hmem
      · intro f hf hstart
        obtain ⟨hmem, hfqp⟩ := (mem_amRemove _ _ _).1 hf
        obtain ⟨e, hemem, heq⟩ := hBE f hmem hstart
        have hename : e.1 ≠ qn := by
          intro hh
          obtain ⟨hq1, -⟩ := hCl e hemem
          exact hfqp (heq ▸ (hq1.trans (by rw [hh, ← he1]) :
            e.2.quarantine_path = entry.quarantine_path))
        exact ⟨e, (mem_amRemove _ _ _).2 ⟨hemem, hename⟩, heq⟩
      · intro e he
        exact hCl e ((mem_amRemove _ _ _).1 he).1

/-- C1 counterexample: quarantining `home/evil.bin` with the metadata
write failing reports failure (`False`), yet the pre-operation state is
not intact — the encrypted blob was already written, no metadata entry
exists for it, and the entry-iff-blob invariant is violated (an orphaned
blob).  The original file is still present, so the specific spec promise
violated is "no partial state", not data loss. -/
theorem C1_counterexample :
    (qmQuarantineFile (fun _ => "beefcafe")
        { writeFile := false, saveMeta := true, secureOverwrite := false, unlink := false }
        "20240101_000000" "home/evil.bin" [] qmStateCex).1 = false ∧
    (qmQuarantineFile (fun _ => "beefcafe")
        { writeFile := false, saveMeta := true, secureOverwrite := false, unlink := false }
        "20240101_000000" "home/evil.bin" [] qmStateCex).2 ≠ qmStateCex ∧
    amGet (qmQuarantineFile (fun _ => "beefcafe")
        { writeFile := false, saveMeta := true, secureOverwrite := false, unlink := false }
        "20240101_000000" "home/evil.bin" [] qmStateCex).2.files
      "quarantine/20240101_000000_evil.bin" ≠ none ∧
    amGet (qmQuarantineFile (fun _ => "beefcafe")
        { writeFile := false, saveMeta := true, secureOverwrite := false, unlink := false }
        "20240101_000000" "home/evil.bin" [] qmStateCex).2.metadata
      "20240101_000000_evil.bin" = none ∧
    ¬ entryIffBlob (qmQuarantineFile (fun _ => "beefcafe")
        { writeFile := false, saveMeta := true, secureOverwrite := false, unlink := false }
        "20240101_000000" "home/evil.bin" [] qmStateCex).2 := by
  refine ⟨rfl, ?_, ?_, rfl, ?_⟩ <;> decide

/-- C1 amended: a quarantine-store mutation that runs with no primitive
failure preserves the entry-iff-blob invariant (in its strengthened,
inductive form `qmInv`); a mutation that fails partway may instead leave
the completed steps behind, as the counterexample shows. -/
theorem C1_success_preserves_entry_iff_blob
    (hashFn : FileData → String) (ts fp qn : String) (ti : List Threat)
    (s : QMState) (hinv : qmInv s)
    (hfp : pyStartswith fp "quarantine/" = false) :
    (qmInv (qmQuarantineFile hashFn noFail ts fp ti s).2 ∧
      entryIffBlob (qmQuarantineFile hashFn noFail ts fp ti s).2) ∧
    (qmInv (qmRestoreFile noFail qn s).2 ∧
      entryIffBlob (qmRestoreFile noFail qn s).2) ∧
    (qmInv (qmDeleteQuarantined noFail qn s).2 ∧
      entryIffBlob (qmDeleteQuarantined noFail qn s).2) :=
  have h1 := qmQuarantine_preserves hashFn ts fp ti s hinv hfp
  have h2 := qmRestore_preserves qn s hinv
  have h3 := qmDelete_preserves qn s hinv
  ⟨⟨h1, h1.1⟩, ⟨h2, h2.1⟩, ⟨h3, h3.1⟩⟩

/-- Witness for the amended C1 theorem: a store holding one quarantined
entry with its blob, quarantining a fresh file, restoring and deleting
the existing entry. -/
theorem C1_success_preserves_entry_iff_blob_witness :
    qmInv qmStateWit ∧
    ((qmInv (qmQuarantineFile (fun _ => "beefcafe") noFail
          "20240101_000000" "home/evil.bin" [] qmStateWit).2 ∧
        entryIffBlob (qmQuarantineFile (fun _ => "beefcafe") noFail
          "20240101_000000" "home/evil.bin" [] qmStateWit).2) ∧
      (qmInv (qmRestoreFile noFail "q1" qmStateWit).2 ∧
        entryIffBlob (qmRestoreFile noFail "q1" qmStateWit).2) ∧
      (qmInv (qmDeleteQuarantined noFail "q1" qmStateWit).2 ∧
        entryIffBlob (qmDeleteQuarantined noFail "q1" qmStateWit).2)) :=
  ⟨by decide,
   C1_success_preserves_entry_iff_blob (fun _ => "beefcafe")
     "20240101_000000" "home/evil.bin" "q1" [] qmStateWit (by decide) (by decide)⟩

end AVSpec
